import Mathlib

/-!
Shallow embedding of `src/pages/yami.py`, a Streamlit page that looks up a
school in the NEIS open API and shows the lunch menu for one day.  The
embedded parts are the two HTTP helpers `find_school` and `get_meal`
(request parameters, status handling, defensive JSON parsing), the lunch
filter over meal rows, and the menu cleanup function `clean_ddish`.
Python regular expressions are embedded as structural functions on
`List Char`; character classes are modelled over their ASCII content,
which covers every string the claims mention.
-/

set_option autoImplicit false

namespace Yami

/-- JSON values as delivered by `response.json()`.  NEIS payloads use
null, strings, integers, arrays and objects; floats and booleans do not
occur in the modelled code paths. -/
inductive Json where
  | null
  | str (s : String)
  | int (n : Int)
  | arr (elems : List Json)
  | obj (fields : List (String × Json))

/-- First-match association lookup, embedding `dict[key]` / `dict.get(key)`
for JSON objects (keys are assumed unique, as in NEIS payloads). -/
def lookupF (fs : List (String × Json)) (k : String) : Option Json :=
  match fs with
  | [] => none
  | f :: rest => if f.1 = k then some f.2 else lookupF rest k

/-- ASCII content of the Python whitespace class used by `str.strip()`
and the regex class `\s`. -/
def isPySpace (c : Char) : Bool :=
  c == ' ' || c == '\t' || c == '\n' || c == '\r' || c == '\x0b' || c == '\x0c'

/-- ASCII decimal digit, the content of `[0-9]` and of `\d` on NEIS data. -/
def isDigit09 (c : Char) : Bool :=
  c.isDigit

/-- Remove the maximal run of characters satisfying `p` from the end of a
list (the mirror image of `List.dropWhile`). -/
def dropTW (p : Char → Bool) : List Char → List Char
  | [] => []
  | c :: cs =>
    match dropTW p cs with
    | [] => if p c then [] else [c]
    | r => c :: r

/-- Embedding of Python `str.strip()`: drop leading and trailing whitespace. -/
def pyStrip (l : List Char) : List Char :=
  dropTW isPySpace (l.dropWhile isPySpace)

/-- `str.strip()` on `String`. -/
def pyStripS (s : String) : String :=
  String.mk (pyStrip s.data)

example : pyStripS "  2 " = "2" := rfl
example : pyStripS " \t a b \n" = "a b" := rfl
example : dropTW isDigit09 "ab12".data = "ab".data := rfl

/-- Substring test on character lists (Python `needle in haystack` for
strings), used to state when a `str.replace` is a no-op. -/
def containsSub (pat : List Char) : List Char → Bool
  | [] => pat.isEmpty
  | c :: cs => pat.isPrefixOf (c :: cs) || containsSub pat cs

/-- Fuel-driven worker for `replaceList`; with fuel at least the length of
the input it embeds Python `str.replace(pat, rep)` (leftmost, non
overlapping, scan resumes after the replacement). -/
def replL (pat rep : List Char) : Nat → List Char → List Char
  | 0, l => l
  | _ + 1, [] => []
  | n + 1, c :: cs =>
    if !pat.isEmpty && pat.isPrefixOf (c :: cs) then
      rep ++ replL pat rep n ((c :: cs).drop pat.length)
    else
      c :: replL pat rep n cs

/-- Embedding of Python `str.replace` on character lists. -/
def replaceList (pat rep l : List Char) : List Char :=
  replL pat rep l.length l

/-- A leftmost match of the regex `[0-9]+\.` starting at the head of the
list: a nonempty digit run whose maximal extension is immediately followed
by a period.  Returns the remainder after the match. -/
def matchDigitsDot (l : List Char) : Option (List Char) :=
  let run := l.takeWhile isDigit09
  if !run.isEmpty && ((l.drop run.length).head? == some '.') then
    some (l.drop (run.length + 1))
  else
    none

/-- Fuel-driven worker for `sub1`. -/
def sub1Aux : Nat → List Char → List Char
  | 0, l => l
  | _ + 1, [] => []
  | n + 1, c :: cs =>
    match matchDigitsDot (c :: cs) with
    | some rest => sub1Aux n rest
    | none => c :: sub1Aux n cs

/-- Embedding of `re.sub(r"[0-9]+\.", "", txt)`: every leftmost,
non-overlapping run of digits immediately followed by a period is removed. -/
def sub1 (l : List Char) : List Char :=
  sub1Aux l.length l

/-- Embedding of `re.sub(r"\s*\d+\s*$", "", txt)`.  The leftmost (hence
maximal) match of the anchored pattern is the suffix made of all trailing
whitespace, the digit run before it, and the whitespace before that digit
run; if the string stripped of trailing whitespace does not end in a
digit there is no match and the string is unchanged. -/
def sub2 (l : List Char) : List Char :=
  match (dropTW isPySpace l).getLast? with
  | none => l
  | some c =>
    if isDigit09 c then
      dropTW isPySpace (dropTW isDigit09 (dropTW isPySpace l))
    else l

/-- The two literal line-break tokens replaced by `clean_ddish`. -/
def brSlash : List Char := "<br/>".data

/-- See `brSlash`. -/
def brPlain : List Char := "<br>".data

/-- Newline replacement text. -/
def newlineL : List Char := "\n".data

/-- Embedding of `clean_ddish` from `src/pages/yami.py` (lines 160-168):
falsy input gives the empty string; otherwise replace the two br tokens by
newlines, delete digit runs followed by a period, delete one trailing
whitespace-padded digit run, and strip the result. -/
def clean_ddish (txt : String) : String :=
  if txt = "" then ""
  else
    String.mk (pyStrip (sub2 (sub1 (replaceList brPlain newlineL
      (replaceList brSlash newlineL txt.data)))))

example : clean_ddish "감자채볶음1.5.10.13." = "감자채볶음" := rfl
example : clean_ddish "밥<br/>국<br>김치" = "밥\n국\n김치" := rfl
example : clean_ddish "" = "" := rfl
example : clean_ddish "1 2" = "1" := rfl
example : clean_ddish "1" = "" := rfl
example : clean_ddish "123" = "" := rfl
example : clean_ddish "1.5.10." = "" := rfl
example : clean_ddish "a 1 " = "a" := rfl
example : clean_ddish "<b1.r>" = "<br>" := rfl

/-! ### HTTP layer and defensive JSON parsing -/

/-- Python exceptions that can escape the two fetch helpers. -/
inductive PyErr where
  | transport
  | httpStatus
  | jsonDecode
  | typeError
  | keyError
  | attrError
  deriving DecidableEq

/-- An HTTP response: a status code and a body; `body = none` models a
body that is not valid JSON (so `response.json()` raises). -/
structure HResp where
  status : Nat
  body : Option Json

/-- Embedding of `requests.get` + `raise_for_status()` + `r.json()`.
A `none` response is a transport-level failure (a `requests` exception);
`raise_for_status` raises exactly for status codes 400-599. -/
def http_get (resp : Option HResp) : Except PyErr Json :=
  match resp with
  | none => .error .transport
  | some r =>
    if 400 ≤ r.status ∧ r.status < 600 then .error .httpStatus
    else
      match r.body with
      | none => .error .jsonDecode
      | some data => .ok data

/-- Python `key in data` for a JSON value: key membership for objects,
element equality for arrays, substring for strings, `TypeError` otherwise. -/
def jContains : Json → String → Except PyErr Bool
  | .obj fs, k => .ok (fs.any (fun f => f.1 == k))
  | .arr xs, k => .ok (xs.any (fun j => match j with | .str s => s == k | _ => false))
  | .str s, k => .ok (containsSub k.data s.data)
  | _, _ => .error .typeError

/-- Python `data[k]` for a string key: object lookup (`KeyError` when the
key is absent), `TypeError` on any other JSON value. -/
def jIndexStr : Json → String → Except PyErr Json
  | .obj fs, k =>
    match lookupF fs k with
    | some v => .ok v
    | none => .error .keyError
  | _, _ => .error .typeError

/-- Python `len` on a JSON value; `none` models a `TypeError`. -/
def pyLen : Json → Option Nat
  | .arr xs => some xs.length
  | .obj fs => some fs.length
  | .str s => some s.length
  | _ => none

/-- Embedding of `try: items = v[1]["row"] except Exception: items = []`:
every possible `IndexError`, `KeyError` or `TypeError` in the two indexing
steps is caught and yields the empty list. -/
def tryRowExtract : Json → Json
  | .arr xs =>
    match xs[1]? with
    | some (Json.obj fs) => (lookupF fs "row").getD (.arr [])
    | _ => .arr []
  | _ => .arr []

/-- Python iteration over a JSON value: arrays yield elements, objects
yield their keys, strings yield one-character strings, anything else
raises `TypeError`. -/
def pyIter : Json → Except PyErr (List Json)
  | .arr xs => .ok xs
  | .obj fs => .ok (fs.map (fun f => .str f.1))
  | .str s => .ok (s.data.map (fun ch => .str (String.mk [ch])))
  | _ => .error .typeError

/-- The candidate-school record built by `find_school` (lines 76-83).
The first four fields use `it.get(k)` with default `None`, the last two
use default `""`. -/
structure School where
  atpt_code : Option Json
  atpt_nm : Option Json
  sd_code : Option Json
  schul_nm : Option Json
  eng_nm : Json
  adres : Json

/-- One iteration of the result loop in `find_school`; `it.get` on a
non-dict raises `AttributeError`. -/
def mkSchool : Json → Except PyErr School
  | .obj fs =>
    .ok
      { atpt_code := lookupF fs "ATPT_OFCDC_SC_CODE"
        atpt_nm := lookupF fs "ATPT_OFCDC_SC_NM"
        sd_code := lookupF fs "SD_SCHUL_CODE"
        schul_nm := lookupF fs "SCHUL_NM"
        eng_nm := (lookupF fs "ENG_SCHUL_NM").getD (.str "")
        adres := (lookupF fs "LCTN_ADRES").getD (.str "") }
  | _ => .error .attrError

/-- Body handling of `find_school` (lines 66-84): missing top-level key or
an envelope shorter than one element gives `[]`; the row extraction is
wrapped in a catch-all; the result loop converts each row. -/
def parse_school_body (data : Json) : Except PyErr (List School) :=
  match jContains data "schoolInfo" with
  | .error e => .error e
  | .ok present =>
    if present then
      match jIndexStr data "schoolInfo" with
      | .error e => .error e
      | .ok v =>
        match pyLen v with
        | none => .error .typeError
        | some n =>
          if n < 1 then .ok []
          else
            match pyIter (tryRowExtract v) with
            | .error e => .error e
            | .ok xs => xs.mapM mkSchool
    else .ok []

/-- Body handling of `get_meal` (lines 101-108): same defensive shape, but
the raw `row` value is returned as is. -/
def parse_meal_body (data : Json) : Except PyErr Json :=
  match jContains data "mealServiceDietInfo" with
  | .error e => .error e
  | .ok present =>
    if present then
      match jIndexStr data "mealServiceDietInfo" with
      | .error e => .error e
      | .ok v =>
        match pyLen v with
        | none => .error .typeError
        | some n => if n < 1 then .ok (.arr []) else .ok (tryRowExtract v)
    else .ok (.arr [])

/-- `find_school` from the response onward (lines 64-84). -/
def find_school_resp (resp : Option HResp) : Except PyErr (List School) :=
  match http_get resp with
  | .error e => .error e
  | .ok data => parse_school_body data

/-- `get_meal` from the response onward (lines 99-108). -/
def get_meal_resp (resp : Option HResp) : Except PyErr Json :=
  match http_get resp with
  | .error e => .error e
  | .ok data => parse_meal_body data

/-- Query parameters of `find_school` (lines 51-61): the education-office
filter is added only when the region argument is truthy and differs from
the sentinel "전체" (page values appear in their wire form). -/
def school_params (api_key name : String) (region : Option String) :
    List (String × String) :=
  let base := [("KEY", api_key), ("Type", "json"), ("pIndex", "1"),
    ("pSize", "100"), ("SCHUL_NM", name)]
  match region with
  | some r => if r ≠ "" ∧ r ≠ "전체" then base ++ [("ATPT_OFCDC_SC_NM", r)] else base
  | none => base

/-- Query parameters of `get_meal` (lines 91-97). -/
def meal_params (api_key atpt_code sch_code ymd : String) :
    List (String × String) :=
  [("KEY", api_key), ("Type", "json"), ("ATPT_OFCDC_SC_CODE", atpt_code),
    ("SD_SCHUL_CODE", sch_code), ("MLSV_YMD", ymd)]

/-- `find_school` (lines 46-84) against an abstract network, a function
from query parameters to the observed response. -/
def find_school (http : List (String × String) → Option HResp)
    (api_key name : String) (region : Option String) :
    Except PyErr (List School) :=
  find_school_resp (http (school_params api_key name region))

/-- `get_meal` (lines 87-108) against an abstract network. -/
def get_meal (http : List (String × String) → Option HResp)
    (api_key atpt_code sch_code ymd : String) : Except PyErr Json :=
  get_meal_resp (http (meal_params api_key atpt_code sch_code ymd))

/-! ### The lunch filter of the page body -/

/-- A meal row as iterated by the page: a JSON object given by its fields. -/
abbrev MealRow := List (String × Json)

/-- `m.get(k)` on a row. -/
def mGet (m : MealRow) (k : String) : Option Json := lookupF m k

/-- The membership test of line 154:
`m.get("MMEAL_SC_CODE") in ("2", 2, "2 ", " 2")`. -/
def isLunchCode : Option Json → Bool
  | some (.str s) => s == "2" || s == "2 " || s == " 2"
  | some (.int n) => n == 2
  | _ => false

/-- The list comprehension of line 154. -/
def lunch_filter (meals : List MealRow) : List MealRow :=
  meals.filter (fun m => isLunchCode (mGet m "MMEAL_SC_CODE"))

/-- Lines 154-157: the filtered rows, falling back to the whole input when
nothing matched. -/
def lunch_items (meals : List MealRow) : List MealRow :=
  let l := lunch_filter meals
  if l.isEmpty then meals else l

/-- The filter the spec asks for: the meal-type code, taken as a string
and stripped of surrounding whitespace, equals "2", whether the payload
encoded it as an integer or as a (possibly padded) string. -/
def trimEq2 : Option Json → Bool
  | some (.str s) => pyStripS s == "2"
  | some (.int n) => pyStripS (toString n) == "2"
  | _ => false

example : trimEq2 (some (.int 2)) = true := rfl
example : trimEq2 (some (.str "  2")) = true := rfl
example : isLunchCode (some (.str "  2")) = false := rfl
example : lunch_filter [[("MMEAL_SC_CODE", Json.str "  2")]] = [] := rfl
example : lunch_items [[("MMEAL_SC_CODE", Json.str "1")]]
    = [[("MMEAL_SC_CODE", Json.str "1")]] := rfl
example : find_school_resp (some ⟨404, some (Json.obj [])⟩) = .error .httpStatus := rfl
example : find_school_resp (some ⟨304, some (Json.obj [])⟩) = .ok [] := rfl
example : find_school_resp (some ⟨200, none⟩) = .error .jsonDecode := rfl
example : find_school_resp none = .error .transport := rfl
example :
    find_school_resp (some ⟨200, some (Json.obj
      [("schoolInfo", Json.arr [Json.null, Json.obj [("row", Json.arr [])]])])⟩)
      = .ok [] := rfl
example :
    get_meal_resp (some ⟨200, some (Json.obj
      [("mealServiceDietInfo", Json.arr [Json.null, Json.obj []])])⟩)
      = .ok (.arr []) := rfl

/-! ### Date-range deriver (month bounds) -/

/-- A calendar date. -/
structure Date where
  year : Nat
  month : Nat
  day : Nat
  deriving DecidableEq

/-- Gregorian leap-year rule. -/
def isLeap (y : Nat) : Bool :=
  (y % 4 == 0 && y % 100 != 0) || y % 400 == 0

/-- Length of a calendar month. -/
def daysInMonth (y m : Nat) : Nat :=
  if m == 2 then (if isLeap y then 29 else 28)
  else if m == 4 || m == 6 || m == 9 || m == 11 then 30
  else 31

/-- Modelled from the spec: `src/` contains only the single-day page, so
the `monthBounds` contract of the Date-Range Deriver (spec section 4.4)
has no source code here.  `prevDay` gives the calendar semantics of
`date - timedelta(days=1)`: the previous day, rolling into the last day of
the previous month (or into December 31 of the previous year). -/
def prevDay (d : Date) : Date :=
  if 1 < d.day then ⟨d.year, d.month, d.day - 1⟩
  else if 1 < d.month then ⟨d.year, d.month - 1, daysInMonth d.year (d.month - 1)⟩
  else ⟨d.year - 1, 12, 31⟩

/-- Modelled from the spec: `monthBounds(year, month)` returns the first
calendar day of the month and, by rolling forward one month and
subtracting one day, the last calendar day. -/
def monthBounds (y m : Nat) : Date × Date :=
  let first : Date := ⟨y, m, 1⟩
  let nextFirst : Date := if m == 12 then ⟨y + 1, 1, 1⟩ else ⟨y, m + 1, 1⟩
  (first, prevDay nextFirst)

example : (monthBounds 2024 2).2 = ⟨2024, 2, 29⟩ := rfl
example : (monthBounds 2023 2).2 = ⟨2023, 2, 28⟩ := rfl
example : (monthBounds 2023 12).2 = ⟨2023, 12, 31⟩ := rfl

/-! ### Helper lemmas about the string cleanup functions -/

theorem dropWhile_idem (p : Char → Bool) (l : List Char) :
    (l.dropWhile p).dropWhile p = l.dropWhile p := by
  induction l with
  | nil => rfl
  | cons c cs ih =>
    cases hc : p c with
    | true => simp [List.dropWhile_cons, hc, ih]
    | false => simp [List.dropWhile_cons, hc]

theorem dropWhile_eq_nil_of_dropTW (p : Char → Bool) :
    ∀ l : List Char, dropTW p l = [] → l.dropWhile p = []
  | [], _ => rfl
  | c :: cs, h => by
    cases h2 : dropTW p cs with
    | nil =>
      cases hc : p c with
      | true =>
        have hcs : cs.dropWhile p = [] := dropWhile_eq_nil_of_dropTW p cs h2
        simp [List.dropWhile_cons, hc, hcs]
      | false => simp [dropTW, h2, hc] at h
    | cons r rs => simp [dropTW, h2] at h

theorem dropTW_cons_nil (p : Char → Bool) (c : Char) (cs : List Char)
    (h : dropTW p cs = []) :
    dropTW p (c :: cs) = if p c then [] else [c] := by
  simp [dropTW, h]

theorem dropTW_cons_of_ne (p : Char → Bool) (c r : Char) (cs rs : List Char)
    (h : dropTW p cs = r :: rs) :
    dropTW p (c :: cs) = c :: r :: rs := by
  simp [dropTW, h]

theorem dropTW_idem (p : Char → Bool) :
    ∀ l : List Char, dropTW p (dropTW p l) = dropTW p l
  | [] => rfl
  | c :: cs => by
    cases h : dropTW p cs with
    | nil =>
      rw [dropTW_cons_nil p c cs h]
      cases hc : p c with
      | true => simp [hc, dropTW]
      | false => simp [hc, dropTW]
    | cons r rs =>
      have ih := dropTW_idem p cs
      rw [h] at ih
      rw [dropTW_cons_of_ne p c r cs rs h, dropTW_cons_of_ne p c r (r :: rs) rs ih]

theorem dropWhile_dropTW (p : Char → Bool) :
    ∀ l : List Char, (dropTW p l).dropWhile p = dropTW p (l.dropWhile p)
  | [] => rfl
  | c :: cs => by
    cases hc : p c with
    | false =>
      cases h : dropTW p cs with
      | nil =>
        rw [dropTW_cons_nil p c cs h]
        simp [hc, List.dropWhile_cons, dropTW, h]
      | cons r rs =>
        rw [dropTW_cons_of_ne p c r cs rs h]
        simp [hc, List.dropWhile_cons, dropTW, h]
    | true =>
      cases h : dropTW p cs with
      | nil =>
        have hcs : cs.dropWhile p = [] := dropWhile_eq_nil_of_dropTW p cs h
        rw [dropTW_cons_nil p c cs h]
        simp [hc, hcs, List.dropWhile_cons, dropTW]
      | cons r rs =>
        have ih := dropWhile_dropTW p cs
        rw [h] at ih
        rw [dropTW_cons_of_ne p c r cs rs h]
        simp [List.dropWhile_cons, hc, ih]

theorem pyStrip_dropTW (l : List Char) :
    pyStrip (dropTW isPySpace l) = pyStrip l := by
  unfold pyStrip
  rw [dropWhile_dropTW, dropTW_idem]

theorem pyStrip_idem (l : List Char) : pyStrip (pyStrip l) = pyStrip l := by
  unfold pyStrip
  rw [dropWhile_dropTW, dropWhile_idem, dropTW_idem]

theorem getLast?_mem_self : ∀ {l : List Char} {c : Char},
    l.getLast? = some c → c ∈ l
  | [a], c, h => by
    simp [List.getLast?] at h
    simp [h]
  | a :: b :: t, c, h => by
    rw [List.getLast?_cons_cons] at h
    exact List.mem_cons_of_mem a (getLast?_mem_self h)

theorem dropTW_of_getLast_false (p : Char → Bool) :
    ∀ l : List Char, ∀ c : Char, l.getLast? = some c → p c = false →
      dropTW p l = l
  | [a], c, h, hp => by
    simp [List.getLast?] at h
    subst h
    simp [dropTW, hp]
  | a :: b :: t, c, h, hp => by
    rw [List.getLast?_cons_cons] at h
    have ih := dropTW_of_getLast_false p (b :: t) c h hp
    rw [dropTW_cons_of_ne p a b (b :: t) t ih]

theorem sub2_no_op (l : List Char) (h1 : dropTW isPySpace l = l)
    (h2 : l.all (fun c => !(isDigit09 c)) = true) : sub2 l = l := by
  unfold sub2
  rw [h1]
  cases hl : l.getLast? with
  | none => rfl
  | some c =>
    have hc : c ∈ l := getLast?_mem_self hl
    have hd : isDigit09 c = false := by
      have := List.all_eq_true.mp h2 c hc
      simpa using this
    simp [hd]

theorem strip_sub2 (l : List Char) :
    pyStrip (sub2 l) = pyStrip (dropTW isDigit09 (dropTW isPySpace l)) := by
  unfold sub2
  cases hl : (dropTW isPySpace l).getLast? with
  | none =>
    have h0 : dropTW isPySpace l = [] := List.getLast?_eq_none_iff.mp hl
    have h2 : l.dropWhile isPySpace = [] := dropWhile_eq_nil_of_dropTW _ l h0
    simp [pyStrip, h0, h2, dropTW]
  | some c =>
    cases hd : isDigit09 c with
    | false =>
      have he : dropTW isDigit09 (dropTW isPySpace l) = dropTW isPySpace l :=
        dropTW_of_getLast_false isDigit09 (dropTW isPySpace l) c hl hd
      simp only [hd, if_false, Bool.false_eq_true]
      rw [he, pyStrip_dropTW]
    | true =>
      simp only [hd, if_true]
      rw [pyStrip_dropTW]

theorem sub1Aux_no_op : ∀ (n : Nat) (l : List Char),
    l.all (fun c => !(isDigit09 c)) = true → sub1Aux n l = l
  | 0, _, _ => rfl
  | _ + 1, [], _ => rfl
  | n + 1, c :: cs, h => by
    rw [List.all_cons, Bool.and_eq_true] at h
    have hc : isDigit09 c = false := by simpa using h.1
    have hm : matchDigitsDot (c :: cs) = none := by
      simp [matchDigitsDot, List.takeWhile_cons, hc]
    simp [sub1Aux, hm, sub1Aux_no_op n cs h.2]

theorem sub1_no_op (l : List Char)
    (h : l.all (fun c => !(isDigit09 c)) = true) : sub1 l = l :=
  sub1Aux_no_op l.length l h

theorem replL_no_op (pat rep : List Char) :
    ∀ (n : Nat) (l : List Char), containsSub pat l = false → replL pat rep n l = l
  | 0, _, _ => rfl
  | _ + 1, [], _ => rfl
  | n + 1, c :: cs, h => by
    rw [containsSub, Bool.or_eq_false_iff] at h
    simp [replL, h.1, replL_no_op pat rep n cs h.2]

theorem replaceList_no_op (pat rep l : List Char)
    (h : containsSub pat l = false) : replaceList pat rep l = l :=
  replL_no_op pat rep l.length l h

/-- A string that is already stripped, has no digit and contains neither
br token is a fixed point of `clean_ddish`. -/
theorem clean_fixed (y : String) (hstr : pyStrip y.data = y.data)
    (h1 : y.data.all (fun c => !(isDigit09 c)) = true)
    (h2 : containsSub brSlash y.data = false)
    (h3 : containsSub brPlain y.data = false) :
    clean_ddish y = y := by
  by_cases hy : y = ""
  · subst hy; rfl
  · have hs1 : dropTW isPySpace y.data = y.data := by
      calc dropTW isPySpace y.data
          = dropTW isPySpace (pyStrip y.data) := by rw [hstr]
        _ = dropTW isPySpace (dropTW isPySpace (y.data.dropWhile isPySpace)) := rfl
        _ = dropTW isPySpace (y.data.dropWhile isPySpace) := dropTW_idem _ _
        _ = pyStrip y.data := rfl
        _ = y.data := hstr
    unfold clean_ddish
    rw [if_neg hy, replaceList_no_op _ _ _ h2, replaceList_no_op _ _ _ h3,
      sub1_no_op _ h1, sub2_no_op _ hs1 h1, hstr]

/-! ### Claims about the menu normalizer -/

/-- The normalizer exactly as claim C6 words it: replace the br tokens by
newlines, remove digit runs immediately followed by a period, strip a
trailing bare digit sequence at the very end of the string, and trim the
result.  Spec-side definition, to be compared with `clean_ddish`. -/
def cleanSpecClaim (s : String) : String :=
  String.mk (pyStrip (dropTW isDigit09 (sub1 (replaceList brPlain newlineL
    (replaceList brSlash newlineL s.data)))))

example : cleanSpecClaim "감자채볶음1.5.10.13." = "감자채볶음" := rfl
example : cleanSpecClaim "a 1 " = "a 1" := rfl

/-- Claim C2 is false on the code: `clean_ddish` is not idempotent.  The
second regex deletes only the last whitespace-padded digit run, so
`clean_ddish "1 2" = "1"` while a second application gives `""`. -/
theorem c2_idem_counterexample :
    clean_ddish "1 2" = "1" ∧
      clean_ddish (clean_ddish "1 2") ≠ clean_ddish "1 2" :=
  ⟨rfl, by decide⟩

/-- Claim C2, amended: `clean_ddish` is idempotent on every input whose
cleaned form contains no decimal digit and neither br token; in general a
digit surviving the first pass (as in "1 2") breaks idempotence. -/
theorem c2_clean_ddish_idem_on_digit_free (s : String)
    (h1 : (clean_ddish s).data.all (fun c => !(isDigit09 c)) = true)
    (h2 : containsSub brSlash (clean_ddish s).data = false)
    (h3 : containsSub brPlain (clean_ddish s).data = false) :
    clean_ddish (clean_ddish s) = clean_ddish s := by
  apply clean_fixed _ _ h1 h2 h3
  by_cases hs : s = ""
  · subst hs; rfl
  · unfold clean_ddish
    rw [if_neg hs]
    exact pyStrip_idem _

/-- Witness for the amended claim C2 at the concrete input "ab1.c". -/
theorem c2_idem_witness :
    clean_ddish (clean_ddish "ab1.c") = clean_ddish "ab1.c" :=
  c2_clean_ddish_idem_on_digit_free "ab1.c" (by decide) (by decide) (by decide)

/-- Claim C6 is false as worded: on "a 1 " the code also deletes the
whitespace around the trailing digit run (regex `\s*\d+\s*$`), while a
literal reading of the claim leaves "a 1" after stripping a trailing bare
digit sequence and trimming. -/
theorem c6_clean_counterexample :
    clean_ddish "a 1 " = "a" ∧ cleanSpecClaim "a 1 " = "a 1" ∧
      clean_ddish "a 1 " ≠ cleanSpecClaim "a 1 " :=
  ⟨rfl, rfl, by decide⟩

/-- Claim C6, amended: `clean_ddish` replaces each literal br token with a
newline, removes every digit run immediately followed by a period, then
removes a trailing digit run together with the whitespace around it at the
end of the string (equivalently: strips trailing whitespace, then a
trailing bare digit run, before the final trim), and trims the result. -/
theorem c6_clean_ddish_spec (s : String) :
    clean_ddish s = String.mk (pyStrip (dropTW isDigit09 (dropTW isPySpace
      (sub1 (replaceList brPlain newlineL
        (replaceList brSlash newlineL s.data)))))) := by
  by_cases hs : s = ""
  · subst hs; rfl
  · unfold clean_ddish
    rw [if_neg hs]
    exact congrArg String.mk (strip_sub2 _)

/-- Claim C10: some non-empty raw menu strings normalize to the empty
string — a pure digit string and a pure allergen-run string both do. -/
theorem c10_nonempty_to_empty :
    clean_ddish "123" = "" ∧ clean_ddish "1.5.10." = "" ∧
      ("123" : String) ≠ "" ∧ ("1.5.10." : String) ≠ "" :=
  ⟨rfl, rfl, by decide, by decide⟩

/-! ### Claims about the lunch filter -/

theorem isLunchCode_iff (v : Option Json) :
    isLunchCode v = true ↔
      (v = some (Json.int 2) ∨ v = some (Json.str "2") ∨
        v = some (Json.str "2 ") ∨ v = some (Json.str " 2")) := by
  match v with
  | none => simp [isLunchCode]
  | some .null => simp [isLunchCode]
  | some (.arr xs) => simp [isLunchCode]
  | some (.obj fs) => simp [isLunchCode]
  | some (.str s) => simp [isLunchCode, or_assoc]
  | some (.int n) => simp [isLunchCode]

/-- Claim C1 is false on the code: the filter on line 154 tests membership
in the four-value tuple ("2", 2, "2 ", " 2"), so a record whose code
trims to "2" with any other padding (here "  2") is not selected. -/
theorem c1_lunch_trim_counterexample :
    lunch_filter [[("MMEAL_SC_CODE", Json.str "  2")]] = [] ∧
      trimEq2 (mGet [("MMEAL_SC_CODE", Json.str "  2")] "MMEAL_SC_CODE") = true :=
  ⟨rfl, rfl⟩

/-- Claim C1, amended: the lunch filter selects exactly the records whose
meal-type code is the integer 2 or one of the exact strings "2", "2 ",
" 2"; every selected code does trim to "2", but trim-equality is not the
selection rule (other paddings are excluded). -/
theorem c1_lunch_filter_exact (meals : List MealRow) (m : MealRow) :
    (m ∈ lunch_filter meals → trimEq2 (mGet m "MMEAL_SC_CODE") = true) ∧
    (m ∈ lunch_filter meals ↔ m ∈ meals ∧
      (mGet m "MMEAL_SC_CODE" = some (Json.int 2) ∨
        mGet m "MMEAL_SC_CODE" = some (Json.str "2") ∨
        mGet m "MMEAL_SC_CODE" = some (Json.str "2 ") ∨
        mGet m "MMEAL_SC_CODE" = some (Json.str " 2"))) := by
  constructor
  · intro hm
    have h := (List.mem_filter.mp hm).2
    rcases (isLunchCode_iff _).mp h with h' | h' | h' | h' <;> rw [h'] <;> rfl
  · rw [lunch_filter, List.mem_filter, isLunchCode_iff]

/-- Witness for the amended claim C1: the plain string "2" is selected and
trims to "2". -/
theorem c1_lunch_filter_witness :
    trimEq2 (mGet [("MMEAL_SC_CODE", Json.str "2")] "MMEAL_SC_CODE") = true :=
  (c1_lunch_filter_exact [[("MMEAL_SC_CODE", Json.str "2")]]
      [("MMEAL_SC_CODE", Json.str "2")]).1
    ((c1_lunch_filter_exact [[("MMEAL_SC_CODE", Json.str "2")]]
        [("MMEAL_SC_CODE", Json.str "2")]).2.mpr
      ⟨List.mem_singleton.mpr rfl, Or.inr (Or.inl rfl)⟩)

/-- Claim C5: when a non-empty meal list has no record matching the lunch
code, lines 155-157 fall back to the whole unfiltered list. -/
theorem c5_single_day_fallback (meals : List MealRow) (_hne : meals ≠ [])
    (hnone : lunch_filter meals = []) : lunch_items meals = meals := by
  unfold lunch_items
  rw [hnone]
  rfl

/-- Witness for claim C5 at a one-record list carrying the breakfast code. -/
theorem c5_fallback_witness :
    lunch_items [[("MMEAL_SC_CODE", Json.str "1")]]
      = [[("MMEAL_SC_CODE", Json.str "1")]] :=
  c5_single_day_fallback [[("MMEAL_SC_CODE", Json.str "1")]] (by simp) rfl

/-! ### Claims about HTTP error handling -/

/-- Claim C3 is false on the code: `raise_for_status()` turns a 404 into
an exception, not into an empty result. -/
theorem c3_status_counterexample :
    find_school_resp (some ⟨404, some (Json.obj [])⟩) = .error .httpStatus ∧
      (Except.error PyErr.httpStatus : Except PyErr (List School)) ≠ .ok [] :=
  ⟨rfl, by simp⟩

/-- Claim C3, amended: a 4xx or 5xx status makes both fetch helpers raise
(`raise_for_status`), and a non-raising status whose body is not valid
JSON makes `r.json()` raise; neither is returned as an empty result. -/
theorem c3_failures_raise :
    (∀ (s : Nat) (b : Option Json), 400 ≤ s → s < 600 →
      find_school_resp (some ⟨s, b⟩) = .error .httpStatus ∧
        get_meal_resp (some ⟨s, b⟩) = .error .httpStatus) ∧
    (∀ s : Nat, 200 ≤ s → s < 300 →
      find_school_resp (some ⟨s, none⟩) = .error .jsonDecode ∧
        get_meal_resp (some ⟨s, none⟩) = .error .jsonDecode) := by
  constructor
  · intro s b h1 h2
    have hcond : 400 ≤ s ∧ s < 600 := ⟨h1, h2⟩
    constructor <;> simp [find_school_resp, get_meal_resp, http_get, hcond]
  · intro s h1 h2
    have hcond : ¬(400 ≤ s ∧ s < 600) := by omega
    constructor <;> simp [find_school_resp, get_meal_resp, http_get, hcond]

/-- Witness for the amended claim C3 at statuses 404 and 200. -/
theorem c3_failures_raise_witness :
    find_school_resp (some ⟨404, some Json.null⟩) = .error .httpStatus ∧
      get_meal_resp (some ⟨200, none⟩) = .error .jsonDecode :=
  ⟨(c3_failures_raise.1 404 (some Json.null) (by decide) (by decide)).1,
    (c3_failures_raise.2 200 (by decide) (by decide)).2⟩

/-- Claim C4 is false as stated: a 304 response is not a success status,
yet `raise_for_status()` does not raise for it, so a well-formed 304 body
without the expected key yields an empty list, indistinguishable from
"no results". -/
theorem c4_non_success_counterexample :
    find_school_resp (some ⟨304, some (Json.obj [])⟩) = .ok [] ∧
      ¬(200 ≤ 304 ∧ 304 < 300) :=
  ⟨rfl, by decide⟩

/-- `parse_school_body` on an envelope whose second element has no "row"
key: the caught `KeyError` yields the empty list. -/
theorem parse_school_body_no_row (hdr : Json) (fs : List (String × Json))
    (hrow : lookupF fs "row" = none) :
    parse_school_body (Json.obj [("schoolInfo", Json.arr [hdr, Json.obj fs])])
      = .ok [] := by
  unfold parse_school_body
  simp [jContains, jIndexStr, lookupF, pyLen, tryRowExtract, pyIter, hrow]
  rfl

/-- `parse_meal_body`, same situation as `parse_school_body_no_row`. -/
theorem parse_meal_body_no_row (hdr : Json) (fs : List (String × Json))
    (hrow : lookupF fs "row" = none) :
    parse_meal_body (Json.obj [("mealServiceDietInfo", Json.arr [hdr, Json.obj fs])])
      = .ok (.arr []) := by
  unfold parse_meal_body
  simp [jContains, jIndexStr, lookupF, pyLen, tryRowExtract, pyIter, hrow]

/-- Claim C4, amended: a transport failure or a 4xx/5xx status surfaces as
an exception; a well-formed successful response with zero rows yields the
empty list, which is never equal to an error.  Statuses that are neither
2xx nor in 400-599 (such as 304) do not raise. -/
theorem c4_error_vs_empty :
    find_school_resp none = .error .transport ∧
    get_meal_resp none = .error .transport ∧
    (∀ (s : Nat) (b : Option Json), 400 ≤ s → s < 600 →
      find_school_resp (some ⟨s, b⟩) = .error .httpStatus) ∧
    (∀ (s : Nat) (hdr : Json), 200 ≤ s → s < 300 →
      find_school_resp (some ⟨s, some (Json.obj [("schoolInfo",
        Json.arr [hdr, Json.obj [("row", Json.arr [])]])])⟩) = .ok []) ∧
    (∀ (e : PyErr) (xs : List School),
      (Except.error e : Except PyErr (List School)) ≠ .ok xs) := by
  refine ⟨rfl, rfl, ?_, ?_, ?_⟩
  · intro s b h1 h2
    have hcond : 400 ≤ s ∧ s < 600 := ⟨h1, h2⟩
    simp [find_school_resp, http_get, hcond]
  · intro s hdr h1 h2
    have hcond : ¬(400 ≤ s ∧ s < 600) := by omega
    have hh : http_get (some ⟨s, some (Json.obj [("schoolInfo",
        Json.arr [hdr, Json.obj [("row", Json.arr [])]])])⟩)
        = .ok (Json.obj [("schoolInfo",
          Json.arr [hdr, Json.obj [("row", Json.arr [])]])]) := by
      simp [http_get, hcond]
    simp only [find_school_resp]
    rw [hh]
    rfl
  · intro e xs
    simp

/-- Witness for the amended claim C4 at statuses 500 and 200. -/
theorem c4_error_vs_empty_witness :
    find_school_resp (some ⟨500, some Json.null⟩) = .error .httpStatus ∧
      find_school_resp (some ⟨200, some (Json.obj [("schoolInfo",
        Json.arr [Json.null, Json.obj [("row", Json.arr [])]])])⟩) = .ok [] :=
  ⟨c4_error_vs_empty.2.2.1 500 (some Json.null) (by decide) (by decide),
    c4_error_vs_empty.2.2.2.1 200 Json.null (by decide) (by decide)⟩

/-- Claim C7: on a successful response, a missing top-level key or a
missing "row" list yields an empty result from both fetch helpers, with
no exception. -/
theorem c7_missing_envelope_empty :
    (∀ (s : Nat) (fs : List (String × Json)), 200 ≤ s → s < 300 →
      fs.any (fun f => f.1 == "schoolInfo") = false →
      find_school_resp (some ⟨s, some (Json.obj fs)⟩) = .ok []) ∧
    (∀ (s : Nat) (fs : List (String × Json)), 200 ≤ s → s < 300 →
      fs.any (fun f => f.1 == "mealServiceDietInfo") = false →
      get_meal_resp (some ⟨s, some (Json.obj fs)⟩) = .ok (.arr [])) ∧
    (∀ (s : Nat) (hdr : Json) (fs : List (String × Json)), 200 ≤ s → s < 300 →
      lookupF fs "row" = none →
      find_school_resp (some ⟨s, some (Json.obj [("schoolInfo",
        Json.arr [hdr, Json.obj fs])])⟩) = .ok []) ∧
    (∀ (s : Nat) (hdr : Json) (fs : List (String × Json)), 200 ≤ s → s < 300 →
      lookupF fs "row" = none →
      get_meal_resp (some ⟨s, some (Json.obj [("mealServiceDietInfo",
        Json.arr [hdr, Json.obj fs])])⟩) = .ok (.arr [])) := by
  refine ⟨?_, ?_, ?_, ?_⟩
  · intro s fs h1 h2 hkey
    have hcond : ¬(400 ≤ s ∧ s < 600) := by omega
    have hh : http_get (some ⟨s, some (Json.obj fs)⟩) = .ok (Json.obj fs) := by
      simp [http_get, hcond]
    simp only [find_school_resp]
    rw [hh]
    unfold parse_school_body
    simp [jContains, hkey]
  · intro s fs h1 h2 hkey
    have hcond : ¬(400 ≤ s ∧ s < 600) := by omega
    have hh : http_get (some ⟨s, some (Json.obj fs)⟩) = .ok (Json.obj fs) := by
      simp [http_get, hcond]
    simp only [get_meal_resp]
    rw [hh]
    unfold parse_meal_body
    simp [jContains, hkey]
  · intro s hdr fs h1 h2 hrow
    have hcond : ¬(400 ≤ s ∧ s < 600) := by omega
    have hh : http_get (some ⟨s, some (Json.obj [("schoolInfo",
        Json.arr [hdr, Json.obj fs])])⟩)
        = .ok (Json.obj [("schoolInfo", Json.arr [hdr, Json.obj fs])]) := by
      simp [http_get, hcond]
    simp only [find_school_resp]
    rw [hh]
    exact parse_school_body_no_row hdr fs hrow
  · intro s hdr fs h1 h2 hrow
    have hcond : ¬(400 ≤ s ∧ s < 600) := by omega
    have hh : http_get (some ⟨s, some (Json.obj [("mealServiceDietInfo",
        Json.arr [hdr, Json.obj fs])])⟩)
        = .ok (Json.obj [("mealServiceDietInfo", Json.arr [hdr, Json.obj fs])]) := by
      simp [http_get, hcond]
    simp only [get_meal_resp]
    rw [hh]
    exact parse_meal_body_no_row hdr fs hrow

/-- Witness for claim C7: a 200 response whose body is the empty object,
and one whose envelope holds no "row" key. -/
theorem c7_missing_envelope_witness :
    find_school_resp (some ⟨200, some (Json.obj [])⟩) = .ok [] ∧
      get_meal_resp (some ⟨200, some (Json.obj [("mealServiceDietInfo",
        Json.arr [Json.null, Json.obj []])])⟩) = .ok (.arr []) :=
  ⟨c7_missing_envelope_empty.1 200 [] (by decide) (by decide) rfl,
    c7_missing_envelope_empty.2.2.2 200 Json.null [] (by decide) (by decide) rfl⟩


/-! ### Claims about parameters and date bounds -/

/-- Claim C9 is false for the empty-string region: Python truthiness makes
the guard on line 59 false, so no education-office filter parameter is
added even though "" differs from the sentinel. -/
theorem c9_empty_region_counterexample :
    school_params "k" "n" (some "") = school_params "k" "n" none ∧
      (school_params "k" "n" (some "")).any (fun p => p.1 == "ATPT_OFCDC_SC_NM")
        = false :=
  ⟨rfl, rfl⟩

/-- Claim C9, amended: the sentinel "전체" produces the same query
parameters, hence the same result, as no region argument; every non-empty
region other than the sentinel is passed through as the exact
education-office name filter. -/
theorem c9_sentinel_region (http : List (String × String) → Option HResp)
    (api_key name : String) (_hname : name ≠ "") :
    school_params api_key name (some "전체") = school_params api_key name none ∧
      find_school http api_key name (some "전체")
        = find_school http api_key name none ∧
      (∀ r : String, r ≠ "" → r ≠ "전체" →
        school_params api_key name (some r)
          = school_params api_key name none ++ [("ATPT_OFCDC_SC_NM", r)]) := by
  refine ⟨rfl, rfl, ?_⟩
  intro r hr1 hr2
  simp [school_params, hr1, hr2]

/-- Witness for the amended claim C9 on a concrete school name, region and
network. -/
theorem c9_sentinel_region_witness :
    school_params "key" "서울고등학교" (some "전체")
      = school_params "key" "서울고등학교" none ∧
      school_params "key" "서울고등학교" (some "서울특별시교육청")
        = school_params "key" "서울고등학교" none
          ++ [("ATPT_OFCDC_SC_NM", "서울특별시교육청")] :=
  ⟨(c9_sentinel_region (fun _ => none) "key" "서울고등학교" (by decide)).1,
    (c9_sentinel_region (fun _ => none) "key" "서울고등학교" (by decide)).2.2
      "서울특별시교육청" (by decide) (by decide)⟩

/-- Claim C8: for every valid month, the spec-modelled
rolling-forward-and-subtracting-one-day derivation starts on day 1 and
ends on the true leap-aware last day of the month, with February 2024 and
2023 as concrete checks. -/
theorem c8_month_bounds (y m : Nat) (h1 : 1 ≤ m) (h2 : m ≤ 12) :
    (monthBounds y m).1.day = 1 ∧
      (monthBounds y m).2 = ⟨y, m, daysInMonth y m⟩ ∧
      (monthBounds 2024 2).2 = ⟨2024, 2, 29⟩ ∧
      (monthBounds 2023 2).2 = ⟨2023, 2, 28⟩ := by
  refine ⟨rfl, ?_, rfl, rfl⟩
  by_cases hm : m = 12
  · subst hm
    simp [monthBounds, prevDay, daysInMonth, isLeap]
  · have hbeq : (m == 12) = false := by simp [hm]
    have hlt : 1 < m + 1 := by omega
    simp [monthBounds, hbeq, prevDay, hlt, Nat.add_sub_cancel]

/-- Witness for claim C8 at February 2024. -/
theorem c8_month_bounds_witness :
    (monthBounds 2024 2).1.day = 1 ∧ (monthBounds 2024 2).2 = ⟨2024, 2, 29⟩ :=
  ⟨(c8_month_bounds 2024 2 (by decide) (by decide)).1,
    (c8_month_bounds 2024 2 (by decide) (by decide)).2.2.1⟩

end Yami
